import Mathlib

/-!
Shallow embedding of the `order-of-markov` client code.

The repository ships two variants of the `Analyzer` component:

* the error-surfacing variant, `src/frontend/src/Analyzer.tsx`
  (definitions suffixed `A` below), and
* the silent-fallback variant, `src/unnamed/part_000`
  (definitions suffixed `B` below).

Both define an async `analyzeProblem` performing one `fetch` and a
`handleSubmit` driving the view state.  The embedding passes the outcome
of the awaited `fetch` call in explicitly (`FetchOutcome`), and models an
async function that may reject as a function into `Except JSException`.
-/

namespace MarkovOrder

/-- A JS number as used by the client: `NaN` or an exact numeric value.
Finite doubles are modelled as rationals; every constant compared or
rendered in this development is exactly representable and all the
comparisons involved agree with their IEEE-754 counterparts. -/
inductive JSNum where
  | nan : JSNum
  | num : Rat → JSNum
deriving DecidableEq

/-- JS `x >= c`: comparisons with `NaN` are false. -/
def JSNum.ge (x : JSNum) (c : Rat) : Bool :=
  match x with
  | .nan => false
  | .num q => decide (c ≤ q)

/-- JS `x === c` for a numeric literal `c`: `NaN === c` is false. -/
def JSNum.eqNum (x : JSNum) (c : Rat) : Bool :=
  match x with
  | .nan => false
  | .num q => decide (q = c)

/-- JS number-to-string coercion.  `NaN` prints as `"NaN"`; integers print
exactly.  (Non-integral values are not rendered anywhere in the verified
scenarios; the `toString q` branch is a placeholder for them.) -/
def jsNumToString (n : JSNum) : String :=
  match n with
  | .nan => "NaN"
  | .num q => if q.den = 1 then toString q.num else toString q

/-- A parsed JSON value as the client code sees it.  Arrays do not occur
in any exchanged payload and are omitted. -/
inductive JSValue where
  | jnum : JSNum → JSValue
  | jstr : String → JSValue
  | jbool : Bool → JSValue
  | jnull : JSValue
  | jobj : List (String × JSValue) → JSValue

/-- Property access `v.k`: absent keys give `undefined` (`none`), and so
do non-object scalars other than `null` (JS yields `undefined` for a
property of a number, string or boolean).  JS instead throws a TypeError
on property access of `null`; the model returns `none` there, so it is
faithful only away from `null`, and every theorem below that reads a
property of a parsed body carries a `v ≠ .jnull` hypothesis confining it
to that faithful domain. -/
def jsGet (v : JSValue) (k : String) : Option JSValue :=
  match v with
  | .jobj fields => fields.lookup k
  | _ => none

/-- `typeof x === "number"` for a possibly-undefined property. -/
def isNumberField (v : Option JSValue) : Bool :=
  match v with
  | some (.jnum _) => true
  | _ => false

/-- `typeof x === "string"` for a possibly-undefined property. -/
def isStringField (v : Option JSValue) : Bool :=
  match v with
  | some (.jstr _) => true
  | _ => false

/-- JS truthiness of a value (used by `errorData.detail || ...`). -/
def jsTruthy : JSValue → Bool
  | .jnum .nan => false
  | .jnum (.num q) => decide (q ≠ 0)
  | .jstr s => decide (s ≠ "")
  | .jbool b => b
  | .jnull => false
  | .jobj _ => true

/-- JS string coercion of a value (what `new Error(x).message` holds). -/
def jsToString : JSValue → String
  | .jnum n => jsNumToString n
  | .jstr s => s
  | .jbool b => if b then "true" else "false"
  | .jnull => "null"
  | .jobj _ => "[object Object]"

/-- The `AnalysisResult` interface shared by both variants. -/
structure AnalysisResult where
  order : JSNum
  justification : String
  confidence : JSNum
deriving DecidableEq

/-- An HTTP response as the client consumes it: a status code, and the
JSON parse of the body — `.error msg` when `resp.json()` rejects with a
SyntaxError whose message is `msg`. -/
structure HttpResponse where
  status : Nat
  body : Except String JSValue

/-- `resp.ok` per the fetch specification: status in the range 200–299. -/
def respOk (status : Nat) : Bool := decide (200 ≤ status) && decide (status ≤ 299)

/-- A JS exception value as a `catch` clause classifies it:
an `Error` instance carrying its `.message`, or any other thrown value. -/
inductive JSException where
  | jsError : String → JSException
  | nonError : JSException
deriving DecidableEq

/-- The outcome of the awaited `fetch` call: a rejection (network
failure, carrying the rejection value) or a settled response. -/
inductive FetchOutcome where
  | networkFailure : JSException → FetchOutcome
  | response : HttpResponse → FetchOutcome

/-- The required-field type check both variants perform on a parsed 2xx
body: `order` a number, `justification` a string, `confidence` a number. -/
def shapeOk (v : JSValue) : Bool :=
  isNumberField (jsGet v "order") &&
  isStringField (jsGet v "justification") &&
  isNumberField (jsGet v "confidence")

/-- The three fields of a body passing `shapeOk` (the code returns `data`
itself; rendering reads exactly these three fields, so the cast is
captured by this projection).  The catch-all arms are unreachable when
`shapeOk` holds. -/
def extractResult (v : JSValue) : AnalysisResult :=
  { order := match jsGet v "order" with | some (.jnum n) => n | _ => .nan
    justification := match jsGet v "justification" with | some (.jstr s) => s | _ => ""
    confidence := match jsGet v "confidence" with | some (.jnum n) => n | _ => .nan }

/-- The message thrown on a non-2xx response in the error-surfacing
variant: `errorData.detail || "API error " + status`, where `errorData`
is the parsed body, or `{detail: "Unknown error"}` when parsing fails
(the `.catch` on `resp.json()`). -/
def errMsgA (status : Nat) (body : Except String JSValue) : String :=
  let errorData : JSValue :=
    match body with
    | .ok v => v
    | .error _ => .jobj [("detail", .jstr "Unknown error")]
  let detail : JSValue :=
    match jsGet errorData "detail" with
    | some d => d
    | none => .jnull
  if jsTruthy detail then jsToString detail else "API error " ++ toString status

/-- `analyzeProblem` of the error-surfacing variant
(src/frontend/src/Analyzer.tsx, lines 16–47).  `.error e` means the
async function rejects with exception `e`. -/
def analyzeProblemA (o : FetchOutcome) : Except JSException AnalysisResult :=
  match o with
  | .networkFailure e => .error e
  | .response r =>
    if respOk r.status then
      match r.body with
      | .error msg => .error (.jsError msg)
      | .ok v =>
        if shapeOk v then .ok (extractResult v)
        else .error (.jsError "Invalid response format from API")
    else .error (.jsError (errMsgA r.status r.body))

/-- The try-block of `analyzeProblem` in the silent-fallback variant
(part_000, lines 34–69): same exchange, but a non-2xx status throws the
generic `"API error " + status` (the body is only logged), and the shape
error message differs. -/
def analyzeTryB (o : FetchOutcome) : Except JSException AnalysisResult :=
  match o with
  | .networkFailure e => .error e
  | .response r =>
    if respOk r.status then
      match r.body with
      | .error msg => .error (.jsError msg)
      | .ok v =>
        if shapeOk v then .ok (extractResult v)
        else .error (.jsError "Invalid response shape from API")
    else .error (.jsError ("API error " ++ toString r.status))

/-- The placeholder the silent-fallback catch block fabricates
(part_000, lines 74–124). -/
def fallbackResult : AnalysisResult :=
  { order := .nan, justification := "Error analyzing problem.", confidence := .num 0 }

/-- `analyzeProblem` of the silent-fallback variant (part_000): the
surrounding try/catch converts every failure into the placeholder, so
the function always resolves. -/
def analyzeProblemB (o : FetchOutcome) : Except JSException AnalysisResult :=
  match analyzeTryB o with
  | .ok d => .ok d
  | .error _ => .ok fallbackResult

/-- JS whitespace as far as `String.prototype.trim` is concerned, on the
characters that can occur in the inputs considered here. -/
def isJsWhitespaceChar (c : Char) : Bool :=
  c = ' ' || c = '\t' || c = '\n' || c = '\r' ||
  c = '\x0b' || c = '\x0c' || c = '\u00A0'

/-- JS `s.trim()`. -/
def jsTrim (s : String) : String :=
  String.mk (((s.toList.dropWhile isJsWhitespaceChar).reverse.dropWhile
    isJsWhitespaceChar).reverse)

/-- `replace(/\/+$/g, "")`: strip all trailing slashes. -/
def stripTrailingSlashes (s : String) : String :=
  String.mk ((s.toList.reverse.dropWhile (· = '/')).reverse)

/-- `replace(/\/$/, "")`: strip at most one trailing slash. -/
def stripOneTrailingSlash (s : String) : String :=
  match s.toList.reverse with
  | '/' :: rest => String.mk rest.reverse
  | _ => s

/-- `s.startsWith("/")`. -/
def startsWithSlash (s : String) : Bool :=
  match s.toList with
  | '/' :: _ => true
  | _ => false

/-- Does `apiTailHere cs` hold: `cs` begins with `a p i` followed by
end-of-input or a slash?  Helper for the regex `/\/api($|\/)/`. -/
def apiTailHere : List Char → Bool
  | 'a' :: 'p' :: 'i' :: rest =>
    match rest with
    | [] => true
    | '/' :: _ => true
    | _ => false
  | _ => false

/-- Search every position for `/api` followed by end or `/`. -/
def hasApiSegmentAux : List Char → Bool
  | [] => false
  | c :: rest => (c = '/' && apiTailHere rest) || hasApiSegmentAux rest

/-- `/\/api($|\/)/.test(s)`: `s` contains an `/api` path segment (at the
end, or followed by a further slash). -/
def hasApiSegment (s : String) : Bool := hasApiSegmentAux s.toList

/-- API_BASE resolution of the silent-fallback variant (part_000,
lines 19–30).  `rawBase` is `import.meta.env.VITE_API_BASE || ""`, so an
absent variable arrives as the empty string. -/
def resolveApiBase (rawBase : String) : String :=
  if rawBase = "" then "/api"
  else
    let trimmed := stripTrailingSlashes (jsTrim rawBase)
    if startsWithSlash trimmed then trimmed
    else if hasApiSegment trimmed then trimmed
    else trimmed ++ "/api"

/-- The request URL of the silent-fallback variant (part_000, line 32):
`apiBase.replace(/\/$/, "") + "/analyze"`.  `cfg` is the configured
`VITE_API_BASE` (`none` when absent). -/
def requestUrlB (cfg : Option String) : String :=
  stripOneTrailingSlash (resolveApiBase (cfg.getD "")) ++ "/analyze"

/-- The request URL of the error-surfacing variant (Analyzer.tsx,
lines 19–21): `(VITE_API_BASE || "http://localhost:8000") + "/api/analyze"`. -/
def requestUrlA (cfg : Option String) : String :=
  (if cfg.getD "" = "" then "http://localhost:8000" else cfg.getD "") ++ "/api/analyze"

/-- The view state a completed `handleSubmit` call leaves behind:
whether a network request was issued, and the final `result`, `error`
and `loading` values. -/
structure SubmitState where
  requested : Bool
  result : Option AnalysisResult
  error : Option String
  loading : Bool
deriving DecidableEq

/-- The message the error-surfacing catch sets:
`err instanceof Error ? err.message : "Failed to analyze problem. Please try again."`. -/
def surfacedMessageA (e : JSException) : String :=
  match e with
  | .jsError m => m
  | .nonError => "Failed to analyze problem. Please try again."

/-- `handleSubmit` of the error-surfacing variant (Analyzer.tsx,
lines 49–71). -/
def handleSubmitA (problem : String) (o : FetchOutcome) : SubmitState :=
  if jsTrim problem = "" then
    { requested := false, result := none,
      error := some "Please describe your problem", loading := false }
  else
    match analyzeProblemA o with
    | .ok d => { requested := true, result := some d, error := none, loading := false }
    | .error e =>
      { requested := true, result := none,
        error := some (surfacedMessageA e), loading := false }

/-- `handleSubmit` of the silent-fallback variant (part_000,
lines 128–146): its catch sets a constant message. -/
def handleSubmitB (problem : String) (o : FetchOutcome) : SubmitState :=
  if jsTrim problem = "" then
    { requested := false, result := none,
      error := some "Please describe your problem", loading := false }
  else
    match analyzeProblemB o with
    | .ok d => { requested := true, result := some d, error := none, loading := false }
    | .error _ =>
      { requested := true, result := none,
        error := some "Failed to analyze problem. Please try again.", loading := false }

/-- `getConfidenceLabel` (identical in both variants). -/
def getConfidenceLabel (conf : JSNum) : String :=
  if conf.ge 0.8 then "High"
  else if conf.ge 0.6 then "Moderate"
  else "Low"

/-- `getConfidenceColor` (identical in both variants). -/
def getConfidenceColor (conf : JSNum) : String :=
  if conf.ge 0.8 then "text-green-600"
  else if conf.ge 0.6 then "text-yellow-600"
  else "text-orange-600"

/-- The ordinal-suffix conditional of the result card:
`order === 1 ? "st" : order === 2 ? "nd" : order === 3 ? "rd" : "th"`. -/
def ordinalSuffix (order : JSNum) : String :=
  if order.eqNum 1 then "st"
  else if order.eqNum 2 then "nd"
  else if order.eqNum 3 then "rd"
  else "th"

/-- JS `n * 100` (for the confidence percentage; for every value rendered
in this development the double product is exact, so rational product is
faithful). -/
def jsNumMul100 (n : JSNum) : JSNum :=
  match n with
  | .nan => .nan
  | .num q => .num (q * 100)

/-- `x.toFixed(0)`: `NaN` renders as `"NaN"`, finite values round to the
nearest integer.  Ties are rounded up here; no value rendered in this
development lies at a tie. -/
def toFixed0 (n : JSNum) : String :=
  match n with
  | .nan => "NaN"
  | .num q => toString (q + 1/2).floor

/-- The texts of the result card. -/
structure RenderedResult where
  orderText : String
  orderSuffixText : String
  justificationText : String
  confidenceText : String
  confidenceLabelText : String
deriving DecidableEq

/-- What the result card renders from a result (Analyzer.tsx,
lines 171–216): the order with its ordinal suffix, the justification,
`(confidence * 100).toFixed(0) + "%"` and the parenthesised label. -/
def renderResult (r : AnalysisResult) : RenderedResult :=
  { orderText := jsNumToString r.order
    orderSuffixText := ordinalSuffix r.order
    justificationText := r.justification
    confidenceText := toFixed0 (jsNumMul100 r.confidence) ++ "%"
    confidenceLabelText := "(" ++ getConfidenceLabel r.confidence ++ ")" }

/-- A failing exchange: network failure, non-2xx status, malformed JSON
body, or a body failing the shape check. -/
def exchangeFails (o : FetchOutcome) : Bool :=
  match o with
  | .networkFailure _ => true
  | .response r =>
    !(respOk r.status) ||
    (match r.body with
     | .error _ => true
     | .ok v => !(shapeOk v))

/-! ### Helper lemmas -/

/-- `stripTrailingSlashes` leaves no trailing slash, so the extra
`replace(/\/$/, "")` at URL-construction time is the identity on it. -/
theorem stripOne_of_stripAll (s : String) :
    stripOneTrailingSlash (stripTrailingSlashes s) = stripTrailingSlashes s := by
  unfold stripOneTrailingSlash stripTrailingSlashes
  have h := List.head?_dropWhile_not (fun c => decide (c = '/')) s.toList.reverse
  simp only [String.toList, List.reverse_reverse]
  simp only [String.toList] at h
  split
  · rename_i rest heq
    rw [heq] at h
    simp at h
  · rfl

/-- `Rat.floor` agrees with the floor of the `FloorRing` instance. -/
theorem rat_floor_eq_intFloor (q : ℚ) : q.floor = ⌊q⌋ := by
  rw [Rat.floor_def', Rat.floor_def]

/-- Appending `"/api"` never ends in a slash either. -/
theorem stripOne_append_api (t : String) :
    stripOneTrailingSlash (t ++ "/api") = t ++ "/api" := by
  unfold stripOneTrailingSlash
  have h : (t ++ "/api").toList.reverse = 'i' :: 'p' :: 'a' :: '/' :: t.toList.reverse := by
    simp [String.toList, String.data_append]
  rw [h]
  split
  · rename_i rest heq
    injection heq with h1 _
    exact absurd h1 (by decide)
  · rfl

/-! ### Claims -/

/-- C3: for every input whose trimmed problem text is empty, `handleSubmit`
(in both variants) issues no network request and sets the user-facing
error message to exactly "Please describe your problem". -/
theorem c3_empty_input_no_request (p : String) (o : FetchOutcome)
    (h : jsTrim p = "") :
    (handleSubmitA p o).requested = false ∧
    (handleSubmitA p o).error = some "Please describe your problem" ∧
    (handleSubmitB p o).requested = false ∧
    (handleSubmitB p o).error = some "Please describe your problem" := by
  simp [handleSubmitA, handleSubmitB, h]

/-- Witness for C3 at a whitespace-only input. -/
theorem c3_empty_input_no_request_witness :
    (handleSubmitA "   " (.networkFailure .nonError)).requested = false ∧
    (handleSubmitA "   " (.networkFailure .nonError)).error
      = some "Please describe your problem" ∧
    (handleSubmitB "   " (.networkFailure .nonError)).requested = false ∧
    (handleSubmitB "   " (.networkFailure .nonError)).error
      = some "Please describe your problem" :=
  c3_empty_input_no_request "   " (.networkFailure .nonError) (by decide)

/-- C4: in the silent-fallback variant, every failing exchange (network
failure, non-2xx status, malformed JSON body, or invalid response shape)
makes `analyzeProblem` resolve with the degraded placeholder result
(order NaN, justification "Error analyzing problem.", confidence 0)
instead of propagating the error. -/
theorem c4_silent_fallback_on_failure (o : FetchOutcome)
    (h : exchangeFails o = true) :
    analyzeProblemB o = .ok fallbackResult := by
  cases o with
  | networkFailure e => simp [analyzeProblemB, analyzeTryB]
  | response r =>
    obtain ⟨status, body⟩ := r
    by_cases hok : respOk status = true
    · cases body with
      | error msg => simp [analyzeProblemB, analyzeTryB, hok]
      | ok v =>
        have hv : shapeOk v = false := by
          simp [exchangeFails, hok] at h
          exact h
        simp [analyzeProblemB, analyzeTryB, hok, hv]
    · have hok' : respOk status = false := by
        cases hrb : respOk status with
        | false => rfl
        | true => exact absurd hrb hok
      simp [analyzeProblemB, analyzeTryB, hok']

/-- Witness for C4 at a concrete network failure. -/
theorem c4_silent_fallback_on_failure_witness :
    exchangeFails (.networkFailure .nonError) = true ∧
    analyzeProblemB (.networkFailure .nonError) = .ok fallbackResult :=
  ⟨by decide, c4_silent_fallback_on_failure (.networkFailure .nonError) (by decide)⟩

/-- C7: a 200 response with body
`{"order": 3, "justification": "x", "confidence": 0.9}` is accepted, and
the card renders order "3" with suffix "rd", justification "x",
confidence "90%" with label "(High)". -/
theorem c7_renders_3rd_high :
    analyzeProblemA (.response ⟨200, .ok (.jobj
      [("order", .jnum (.num 3)), ("justification", .jstr "x"),
       ("confidence", .jnum (.num 0.9))])⟩)
      = .ok { order := .num 3, justification := "x", confidence := .num 0.9 } ∧
    renderResult { order := .num 3, justification := "x", confidence := .num 0.9 }
      = { orderText := "3", orderSuffixText := "rd", justificationText := "x",
          confidenceText := "90%", confidenceLabelText := "(High)" } := by
  constructor
  · rfl
  · have hfl : (0.9 * 100 + 1 / 2 : ℚ).floor = 90 := by
      rw [rat_floor_eq_intFloor]
      have hq : (0.9 * 100 + 1 / 2 : ℚ) = ((181 : ℤ) : ℚ) / ((2 : ℕ) : ℚ) := by
        norm_num
      rw [hq, Rat.floor_intCast_div_natCast]
      decide
    simp only [renderResult, jsNumMul100, toFixed0, RenderedResult.mk.injEq]
    refine ⟨by decide, by decide, trivial, ?_, ?_⟩
    · rw [hfl]
      rfl
    · have hh : getConfidenceLabel (.num 0.9) = "High" := by
        norm_num [getConfidenceLabel, JSNum.ge]
      rw [hh]
      rfl

/-- C8: the confidence label is "High" from 0.8 up, "Moderate" from 0.6 up
to below 0.8, and "Low" below 0.6; in particular 0.8 is "High",
0.79999 is "Moderate", 0.6 is "Moderate" and 0.59999 is "Low". -/
theorem c8_confidence_label_boundaries (c : Rat) :
    (0.8 ≤ c → getConfidenceLabel (.num c) = "High") ∧
    (0.6 ≤ c → c < 0.8 → getConfidenceLabel (.num c) = "Moderate") ∧
    (c < 0.6 → getConfidenceLabel (.num c) = "Low") ∧
    getConfidenceLabel (.num 0.8) = "High" ∧
    getConfidenceLabel (.num 0.79999) = "Moderate" ∧
    getConfidenceLabel (.num 0.6) = "Moderate" ∧
    getConfidenceLabel (.num 0.59999) = "Low" := by
  refine ⟨?_, ?_, ?_,
    by norm_num [getConfidenceLabel, JSNum.ge],
    by norm_num [getConfidenceLabel, JSNum.ge],
    by norm_num [getConfidenceLabel, JSNum.ge],
    by norm_num [getConfidenceLabel, JSNum.ge]⟩
  · intro h
    simp [getConfidenceLabel, JSNum.ge, h]
  · intro h1 h2
    simp [getConfidenceLabel, JSNum.ge, h1, not_le.mpr h2]
  · intro h
    have h8 : ¬ ((0.8 : ℚ) ≤ c) := not_le.mpr (lt_trans h (by norm_num))
    have h6 : ¬ ((0.6 : ℚ) ≤ c) := not_le.mpr h
    simp [getConfidenceLabel, JSNum.ge, h8, h6]

/-- Witness for C8 applied at 0.9. -/
theorem c8_confidence_label_boundaries_witness :
    getConfidenceLabel (.num 0.9) = "High" :=
  (c8_confidence_label_boundaries 0.9).1 (by norm_num)

/-- C9: the ordinal suffix rendered with the order is "st" for 1, "nd"
for 2, "rd" for 3, and "th" for 4 and 5. -/
theorem c9_ordinal_suffixes :
    ordinalSuffix (.num 1) = "st" ∧ ordinalSuffix (.num 2) = "nd" ∧
    ordinalSuffix (.num 3) = "rd" ∧ ordinalSuffix (.num 4) = "th" ∧
    ordinalSuffix (.num 5) = "th" := by
  refine ⟨by decide, by decide, by decide, by decide, by decide⟩

/-- C10: the silent-fallback `analyzeProblem` always resolves, so for
every submission with non-empty trimmed input the catch branch of
`handleSubmit` is not taken: the final state has a result, a null error,
and in particular never the message
"Failed to analyze problem. Please try again.". -/
theorem c10_silent_variant_never_rejects (p : String) (o : FetchOutcome)
    (hp : jsTrim p ≠ "") :
    (∃ d, analyzeProblemB o = .ok d) ∧
    (handleSubmitB p o).error = none ∧
    (∃ d, (handleSubmitB p o).result = some d) ∧
    (handleSubmitB p o).error ≠ some "Failed to analyze problem. Please try again." := by
  have htot : ∃ d, analyzeProblemB o = .ok d := by
    cases ha : analyzeTryB o with
    | ok d => exact ⟨d, by simp [analyzeProblemB, ha]⟩
    | error e => exact ⟨fallbackResult, by simp [analyzeProblemB, ha]⟩
  obtain ⟨d, hd⟩ := htot
  refine ⟨⟨d, hd⟩, ?_, ⟨d, ?_⟩, ?_⟩ <;> simp [handleSubmitB, hp, hd]

/-- Witness for C10 at a concrete non-empty input and a network failure. -/
theorem c10_silent_variant_never_rejects_witness :
    jsTrim "p" ≠ "" ∧
    (handleSubmitB "p" (.networkFailure .nonError)).error = none :=
  ⟨by decide,
   (c10_silent_variant_never_rejects "p" (.networkFailure .nonError) (by decide)).2.1⟩

/-- C1 counterexample: in the silent-fallback variant, a 200 response whose
body lacks `confidence` does NOT end with "no result set" — the placeholder
result is set (and no error is surfaced), contradicting the claim. -/
theorem c1_counterexample :
    (handleSubmitB "p" (.response ⟨200, .ok (.jobj
      [("order", .jnum (.num 3)), ("justification", .jstr "x")])⟩)).result
      = some fallbackResult ∧
    (handleSubmitB "p" (.response ⟨200, .ok (.jobj
      [("order", .jnum (.num 3)), ("justification", .jstr "x")])⟩)).error
      = none := by
  constructor
  · rfl
  · rfl

/-- C1 (amended): for every 2xx response whose body parses to a non-null
value failing the order/justification/confidence type check, both
variants detect a shape error; the error-surfacing variant rejects and
ends with no result and the shape-error message, while the
silent-fallback variant converts the shape error into the placeholder
result, which is set.  (A JSON-null body is outside this statement: there
the `typeof data.order` access itself throws a TypeError whose
engine-specific message is what the error-surfacing variant surfaces.) -/
theorem c1_shape_error_handling (p : String) (status : Nat) (v : JSValue)
    (hp : jsTrim p ≠ "") (hok : respOk status = true) (hshape : shapeOk v = false)
    (_hnull : v ≠ JSValue.jnull) :
    (handleSubmitA p (.response ⟨status, .ok v⟩)).result = none ∧
    (handleSubmitA p (.response ⟨status, .ok v⟩)).error
      = some "Invalid response format from API" ∧
    analyzeTryB (.response ⟨status, .ok v⟩)
      = .error (.jsError "Invalid response shape from API") ∧
    (handleSubmitB p (.response ⟨status, .ok v⟩)).result = some fallbackResult ∧
    (handleSubmitB p (.response ⟨status, .ok v⟩)).error = none := by
  simp [handleSubmitA, handleSubmitB, analyzeProblemA, analyzeProblemB, analyzeTryB,
    surfacedMessageA, hp, hok, hshape]

/-- Witness for the amended C1 at a 200 response missing `confidence`. -/
theorem c1_shape_error_handling_witness :
    (handleSubmitA "w" (.response ⟨200, .ok (.jobj
      [("order", .jnum (.num 3)), ("justification", .jstr "x")])⟩)).error
      = some "Invalid response format from API" :=
  (c1_shape_error_handling "w" 200
    (.jobj [("order", .jnum (.num 3)), ("justification", .jstr "x")])
    (by decide) (by decide) (by decide)
    (fun h => JSValue.noConfusion h)).2.1

/-- C2 counterexample: a 500 response whose body is not valid JSON has no
`detail` field, yet the error-surfacing variant surfaces "Unknown error",
not the generic "API error 500" the claim requires. -/
theorem c2_counterexample :
    (handleSubmitA "p" (.response ⟨500, .error "Unexpected end of JSON input"⟩)).error
      = some "Unknown error" ∧
    (some "Unknown error" : Option String) ≠ some ("API error " ++ toString 500) := by
  constructor
  · rfl
  · decide

/-- C2 (amended): in the error-surfacing variant, for every non-2xx
response the surfaced text is the body's `detail` when the body parses as
JSON with a non-empty string `detail`; the generic "API error <status>"
when the body parses to a non-null value without a `detail`; and
"Unknown error" when the body is not valid JSON.  In particular a 500
with body `{"detail": "rate limited"}` surfaces "rate limited".  The
silent-fallback variant surfaces no error at all on non-2xx responses.
(A non-2xx body of literal JSON null is outside this statement: there
`errorData.detail` itself throws a TypeError whose engine-specific
message is what gets surfaced.) -/
theorem c2_detail_surfacing (p : String) (status : Nat) (v : JSValue)
    (d pm : String) (hp : jsTrim p ≠ "") (hst : respOk status = false) :
    (jsGet v "detail" = some (.jstr d) → d ≠ "" →
      (handleSubmitA p (.response ⟨status, .ok v⟩)).error = some d) ∧
    (jsGet v "detail" = none → v ≠ JSValue.jnull →
      (handleSubmitA p (.response ⟨status, .ok v⟩)).error
        = some ("API error " ++ toString status)) ∧
    (handleSubmitA p (.response ⟨status, .error pm⟩)).error = some "Unknown error" ∧
    (handleSubmitB p (.response ⟨status, .ok v⟩)).error = none ∧
    (handleSubmitA "r" (.response ⟨500, .ok (.jobj
      [("detail", .jstr "rate limited")])⟩)).error = some "rate limited" := by
  refine ⟨?_, ?_, ?_, ?_, by rfl⟩
  · intro hd hne
    simp [handleSubmitA, analyzeProblemA, errMsgA, surfacedMessageA,
      hp, hst, hd, jsTruthy, jsToString, hne]
  · intro hd _hnull
    simp [handleSubmitA, analyzeProblemA, errMsgA, surfacedMessageA,
      hp, hst, hd, jsTruthy]
  · simp [handleSubmitA, analyzeProblemA, errMsgA, surfacedMessageA,
      hp, hst, jsGet, jsTruthy, jsToString]
  · simp [handleSubmitB, analyzeProblemB, analyzeTryB, hp, hst]

/-- Witness for the amended C2: the mocked 500 with a `rate limited`
detail surfaces exactly "rate limited". -/
theorem c2_detail_surfacing_witness :
    (handleSubmitA "r" (.response ⟨500, .ok (.jobj
      [("detail", .jstr "rate limited")])⟩)).error = some "rate limited" :=
  (c2_detail_surfacing "q" 500 (.jobj []) "d" "pm" (by decide) (by decide)).2.2.2.2

/-- C5 counterexample: a network failure makes `fetch` reject with an
`Error` instance (e.g. message "Failed to fetch"), so the error-surfacing
variant surfaces that message, not the generic
"Failed to analyze problem. Please try again." the claim requires. -/
theorem c5_counterexample :
    (handleSubmitA "p" (.networkFailure (.jsError "Failed to fetch"))).error
      = some "Failed to fetch" ∧
    (some "Failed to fetch" : Option String)
      ≠ some "Failed to analyze problem. Please try again." := by
  constructor
  · rfl
  · decide

/-- C5 (amended): on a network failure, the error-surfacing variant
surfaces the rejection's own message when the rejection is an `Error`, and
the generic fallback only when it is not; the silent-fallback variant
surfaces no error and sets the placeholder result.  In every case the
loading state is false once the submission completes. -/
theorem c5_network_failure_surfacing (p m : String) (hp : jsTrim p ≠ "") :
    ((handleSubmitA p (.networkFailure (.jsError m))).error = some m ∧
     (handleSubmitA p (.networkFailure (.jsError m))).loading = false) ∧
    ((handleSubmitA p (.networkFailure .nonError)).error
       = some "Failed to analyze problem. Please try again." ∧
     (handleSubmitA p (.networkFailure .nonError)).loading = false) ∧
    ((handleSubmitB p (.networkFailure (.jsError m))).error = none ∧
     (handleSubmitB p (.networkFailure (.jsError m))).result = some fallbackResult ∧
     (handleSubmitB p (.networkFailure (.jsError m))).loading = false) := by
  simp [handleSubmitA, handleSubmitB, analyzeProblemA, analyzeProblemB, analyzeTryB,
    surfacedMessageA, hp]

/-- Witness for the amended C5 at a concrete rejection message. -/
theorem c5_network_failure_surfacing_witness :
    (handleSubmitA "p" (.networkFailure (.jsError "connection refused"))).error
      = some "connection refused" :=
  ((c5_network_failure_surfacing "p" "connection refused" (by decide)).1).1

/-- C6 counterexample: a configured base "/backend" starts with a slash,
so the code uses it as-is and requests "/backend/analyze"; the claim
would append "/api" (giving "/backend/api/analyze") since the value does
not end in an "/api" segment. -/
theorem c6_counterexample :
    requestUrlB (some "/backend") = "/backend/analyze" ∧
    ("/backend/analyze" : String) ≠ "/backend/api/analyze" := by
  constructor
  · rfl
  · decide

/-- C6 (amended): when the base-URL variable is absent (or empty) the
request URL is "/api/analyze".  Otherwise the value is whitespace-trimmed
and its trailing slashes stripped; if the result starts with "/" it is
used as-is; if not, "/api" is appended unless the value already contains
an "/api" path segment anywhere (at its end or followed by "/"), and the
URL is the base followed by "/analyze".  In the error-surfacing variant
the base instead defaults to "http://localhost:8000" and "/api/analyze"
is always appended verbatim. -/
theorem c6_base_url_resolution (s : String) :
    requestUrlB none = "/api/analyze" ∧
    requestUrlB (some "") = "/api/analyze" ∧
    (s ≠ "" →
      (startsWithSlash (stripTrailingSlashes (jsTrim s)) = true →
        requestUrlB (some s) = stripTrailingSlashes (jsTrim s) ++ "/analyze") ∧
      (startsWithSlash (stripTrailingSlashes (jsTrim s)) = false →
        hasApiSegment (stripTrailingSlashes (jsTrim s)) = false →
        requestUrlB (some s)
          = stripTrailingSlashes (jsTrim s) ++ "/api" ++ "/analyze") ∧
      (startsWithSlash (stripTrailingSlashes (jsTrim s)) = false →
        hasApiSegment (stripTrailingSlashes (jsTrim s)) = true →
        requestUrlB (some s) = stripTrailingSlashes (jsTrim s) ++ "/analyze")) ∧
    requestUrlB (some "example.com/api/v2") = "example.com/api/v2/analyze" ∧
    requestUrlA none = "http://localhost:8000/api/analyze" ∧
    (s ≠ "" → requestUrlA (some s) = s ++ "/api/analyze") := by
  refine ⟨by rfl, by rfl, ?_, by rfl, by rfl, ?_⟩
  · intro hs
    refine ⟨?_, ?_, ?_⟩
    · intro h1
      simp [requestUrlB, resolveApiBase, hs, h1, stripOne_of_stripAll]
    · intro h1 h2
      simp [requestUrlB, resolveApiBase, hs, h1, h2, stripOne_append_api]
    · intro h1 h2
      simp [requestUrlB, resolveApiBase, hs, h1, h2, stripOne_of_stripAll]
  · intro hs
    simp [requestUrlA, hs]

/-- Witness for the amended C6 at a host without an "/api" segment. -/
theorem c6_base_url_resolution_witness :
    requestUrlB (some "example.com") = "example.com/api/analyze" := by
  have h := ((c6_base_url_resolution "example.com").2.2.1 (by decide)).2.1
    (by decide) (by decide)
  exact h.trans (by decide)

end MarkovOrder
